import Mathlib

/-!
Shallow embedding of the RCF/CLN profitability calculator
(`src/streamlit_app.py`, function `main`).

Real-valued quantities are modelled as rationals (`ℚ`); Python's true
division `x / y`, which raises `ZeroDivisionError` when `y = 0`, is
modelled by `pyDiv : ℚ → ℚ → Option ℚ` returning `none` on a zero
denominator.  Every assignment of the calculation block becomes a Lean
definition of the same name.
-/

namespace RCF

/-- The flat input record gathered from the sidebar widgets before the
Calculate button fires. -/
structure Inputs where
  rcf_limit : ℚ
  drawn_percentage : ℚ
  cap_cost : ℚ
  margin_bps : ℚ
  funding_bps : ℚ
  credit_bps : ℚ
  capital_bps : ℚ
  commitment_fee_bps : ℚ
  commitment_fee_funding_bps : ℚ
  commitment_fee_credit_bps : ℚ
  commitment_fee_capital_bps : ℚ
  include_cln : Bool
  cln_amount : ℚ
  cln_cost_bps : ℚ
  deriving DecidableEq

/-- Python `/` on rationals: `none` models the `ZeroDivisionError` raised
on a zero denominator. -/
def pyDiv (x y : ℚ) : Option ℚ :=
  if y = 0 then none else some (x / y)

-- ---------------------------------------------------------------------
-- Base (No-CLN) scenario, source lines 467-561
-- ---------------------------------------------------------------------

def undrawn_percentage (i : Inputs) : ℚ := 1 - i.drawn_percentage

def drawn_amount (i : Inputs) : ℚ := i.rcf_limit * i.drawn_percentage

def undrawn_amount (i : Inputs) : ℚ := i.rcf_limit * undrawn_percentage i

def margin_zar (i : Inputs) : ℚ := drawn_amount i * (i.margin_bps / 10000)

def funding_zar (i : Inputs) : ℚ := drawn_amount i * (i.funding_bps / 10000)

def credit_zar (i : Inputs) : ℚ := drawn_amount i * (i.credit_bps / 10000)

def capital_zar (i : Inputs) : ℚ := drawn_amount i * (i.capital_bps / 10000)

def total_cost_bps (i : Inputs) : ℚ := i.funding_bps + i.credit_bps + i.capital_bps

def total_cost_zar (i : Inputs) : ℚ := funding_zar i + credit_zar i + capital_zar i

def net_spread_zar (i : Inputs) : ℚ := margin_zar i + total_cost_zar i

def net_spread_bps (i : Inputs) : ℚ := i.margin_bps + total_cost_bps i

def commitment_fee_zar (i : Inputs) : ℚ :=
  undrawn_amount i * (i.commitment_fee_bps / 10000)

def comm_fee_funding_zar (i : Inputs) : ℚ :=
  undrawn_amount i * (i.commitment_fee_funding_bps / 10000)

def comm_fee_credit_zar (i : Inputs) : ℚ :=
  undrawn_amount i * (i.commitment_fee_credit_bps / 10000)

def comm_fee_capital_zar (i : Inputs) : ℚ :=
  undrawn_amount i * (i.commitment_fee_capital_bps / 10000)

def net_commit_bps (i : Inputs) : ℚ :=
  i.commitment_fee_bps
    + i.commitment_fee_funding_bps
    + i.commitment_fee_credit_bps
    + i.commitment_fee_capital_bps

def net_spread_commit_fees_zar (i : Inputs) : ℚ :=
  undrawn_amount i * (net_commit_bps i / 10000)

def net_spread_commit_fees_bps (i : Inputs) : ℚ := net_commit_bps i

def blended_view_margin_zar (i : Inputs) : ℚ := margin_zar i + commitment_fee_zar i

def blended_view_margin_bps (i : Inputs) : ℚ :=
  i.margin_bps * i.drawn_percentage + i.commitment_fee_bps * undrawn_percentage i

def blended_view_funding_zar (i : Inputs) : ℚ := funding_zar i + comm_fee_funding_zar i

def blended_view_funding_bps (i : Inputs) : ℚ :=
  i.funding_bps * i.drawn_percentage
    + i.commitment_fee_funding_bps * undrawn_percentage i

def blended_view_cln_zar (_i : Inputs) : ℚ := 0

def blended_view_cln_bps (_i : Inputs) : ℚ := 0

def blended_view_credit_zar (i : Inputs) : ℚ := credit_zar i + comm_fee_credit_zar i

def blended_view_credit_bps (i : Inputs) : ℚ :=
  i.credit_bps * i.drawn_percentage
    + i.commitment_fee_credit_bps * undrawn_percentage i

def blended_view_capital_zar (i : Inputs) : ℚ := capital_zar i + comm_fee_capital_zar i

def blended_view_capital_bps (i : Inputs) : ℚ :=
  i.capital_bps * i.drawn_percentage
    + i.commitment_fee_capital_bps * undrawn_percentage i

def blended_view_net_revenue_zar (i : Inputs) : ℚ :=
  blended_view_margin_zar i
    + blended_view_funding_zar i
    + blended_view_cln_zar i
    + blended_view_credit_zar i
    + blended_view_capital_zar i

def blended_view_net_revenue_bps (i : Inputs) : ℚ :=
  blended_view_margin_bps i
    + blended_view_funding_bps i
    + blended_view_cln_bps i
    + blended_view_credit_bps i
    + blended_view_capital_bps i

/-- Source lines 548-561: the `try/except` cannot fire because the zero
case is caught by the explicit `if`, so the embedding is total. -/
def blended_view_roc_bps (i : Inputs) : ℚ :=
  if blended_view_capital_bps i = 0 then 0
  else
    (blended_view_margin_bps i
        + blended_view_funding_bps i
        + blended_view_cln_bps i
        + blended_view_credit_bps i)
      / (-blended_view_capital_bps i)
      * i.cap_cost

-- ---------------------------------------------------------------------
-- CLN scenario gate, source lines 758-761
-- ---------------------------------------------------------------------

/-- Line 760: `cln_amount = min(cln_amount, rcf_limit)` (inside the
`include_cln and cln_amount > 0` branch). -/
def cln_amount_clamped (i : Inputs) : ℚ := min i.cln_amount i.rcf_limit

/-- Lines 758-761: the CLN scenario is entered only when
`include_cln and cln_amount > 0`; then `cln_amount` is clamped and
`cln_percentage = cln_amount / rcf_limit` is computed with Python `/`
(no guard: `rcf_limit = 0` raises, modelled as `none`). -/
def cln_percentage (i : Inputs) : Option ℚ :=
  if i.include_cln = true ∧ 0 < i.cln_amount then
    pyDiv (cln_amount_clamped i) i.rcf_limit
  else none

-- ---------------------------------------------------------------------
-- CLN scenario body, source lines 763-863.  The in-scope (clamped)
-- `cln_amount` is passed as `a`, the computed `cln_percentage` as `p`.
-- ---------------------------------------------------------------------

def cln_margin_bps (i : Inputs) : ℚ := i.margin_bps

def cln_margin_zar (i : Inputs) : ℚ := drawn_amount i * (cln_margin_bps i / 10000)

def cln_funding_bps (i : Inputs) : ℚ := i.funding_bps

def cln_funding_zar (i : Inputs) : ℚ := funding_zar i

def cln_credit_bps (i : Inputs) (p : ℚ) : ℚ := i.credit_bps * (1 - p)

def cln_credit_zar (i : Inputs) (p : ℚ) : ℚ :=
  drawn_amount i * (cln_credit_bps i p / 10000)

def cln_capital_bps (i : Inputs) (p : ℚ) : ℚ := i.capital_bps * (1 - p)

def cln_capital_zar (i : Inputs) (p : ℚ) : ℚ :=
  drawn_amount i * (cln_capital_bps i p / 10000)

def cln_specific_cost_zar (i : Inputs) (a : ℚ) : ℚ := a * (i.cln_cost_bps / 10000)

def cln_total_cost_bps (i : Inputs) (p : ℚ) : ℚ :=
  cln_funding_bps i + cln_credit_bps i p + cln_capital_bps i p

def cln_total_cost_zar (i : Inputs) (p : ℚ) : ℚ :=
  drawn_amount i * (cln_total_cost_bps i p / 10000)

def cln_net_spread_zar (i : Inputs) (p : ℚ) : ℚ :=
  cln_margin_zar i + cln_total_cost_zar i p

def cln_net_spread_bps (i : Inputs) (p : ℚ) : ℚ :=
  cln_margin_bps i + cln_total_cost_bps i p

def cln_commitment_fee_bps (i : Inputs) : ℚ := i.commitment_fee_bps

def cln_commitment_fee_zar (i : Inputs) : ℚ :=
  undrawn_amount i * (cln_commitment_fee_bps i / 10000)

def cln_comm_fee_funding_bps (i : Inputs) : ℚ := i.commitment_fee_funding_bps

def cln_comm_fee_funding_zar (i : Inputs) : ℚ :=
  undrawn_amount i * (cln_comm_fee_funding_bps i / 10000)

def cln_commit_fee_credit_bps (i : Inputs) (p : ℚ) : ℚ :=
  i.commitment_fee_credit_bps * (1 - p)

def cln_commit_fee_credit_zar (i : Inputs) (p : ℚ) : ℚ :=
  undrawn_amount i * (cln_commit_fee_credit_bps i p / 10000)

def cln_commit_fee_capital_bps (i : Inputs) (p : ℚ) : ℚ :=
  i.commitment_fee_capital_bps * (1 - p)

def cln_commit_fee_capital_zar (i : Inputs) (p : ℚ) : ℚ :=
  undrawn_amount i * (cln_commit_fee_capital_bps i p / 10000)

def cln_commit_fee_total_bps (i : Inputs) (p : ℚ) : ℚ :=
  cln_commitment_fee_bps i
    + cln_comm_fee_funding_bps i
    + cln_commit_fee_credit_bps i p
    + cln_commit_fee_capital_bps i p

def cln_net_commit_fee_bps (i : Inputs) (p : ℚ) : ℚ := cln_commit_fee_total_bps i p

def cln_net_commit_fee_zar (i : Inputs) (p : ℚ) : ℚ :=
  undrawn_amount i * (cln_net_commit_fee_bps i p / 10000)

def cln_blended_margin_zar (i : Inputs) : ℚ :=
  cln_margin_zar i + cln_commitment_fee_zar i

def cln_blended_margin_bps (i : Inputs) : ℚ :=
  cln_margin_bps i * i.drawn_percentage
    + i.commitment_fee_bps * undrawn_percentage i

def cln_blended_funding_zar (i : Inputs) : ℚ :=
  cln_funding_zar i + cln_comm_fee_funding_zar i

def cln_blended_funding_bps (i : Inputs) : ℚ :=
  cln_funding_bps i * i.drawn_percentage
    + cln_comm_fee_funding_bps i * undrawn_percentage i

def cln_blended_credit_zar (i : Inputs) (p : ℚ) : ℚ :=
  cln_credit_zar i p + cln_commit_fee_credit_zar i p

def cln_blended_credit_bps (i : Inputs) (p : ℚ) : ℚ :=
  cln_credit_bps i p * i.drawn_percentage
    + cln_commit_fee_credit_bps i p * undrawn_percentage i

def cln_blended_capital_zar (i : Inputs) (p : ℚ) : ℚ :=
  cln_capital_zar i p + cln_commit_fee_capital_zar i p

def cln_blended_capital_bps (i : Inputs) (p : ℚ) : ℚ :=
  cln_capital_bps i p * i.drawn_percentage
    + cln_commit_fee_capital_bps i p * undrawn_percentage i

def blended_cln_cost_zar (i : Inputs) (a : ℚ) : ℚ := cln_specific_cost_zar i a

def blended_cln_cost_bps (i : Inputs) (p : ℚ) : ℚ := i.cln_cost_bps * p

def cln_blended_netrev_zar (i : Inputs) (a p : ℚ) : ℚ :=
  cln_blended_margin_zar i
    + cln_blended_funding_zar i
    + blended_cln_cost_zar i a
    + cln_blended_credit_zar i p
    + cln_blended_capital_zar i p

def cln_blended_netrev_bps (i : Inputs) (p : ℚ) : ℚ :=
  cln_blended_margin_bps i
    + cln_blended_funding_bps i
    + blended_cln_cost_bps i p
    + cln_blended_credit_bps i p
    + cln_blended_capital_bps i p

/-- Source lines 852-863. -/
def cln_roc_bps (i : Inputs) (p : ℚ) : ℚ :=
  if cln_blended_capital_bps i p ≠ 0 then
    (cln_blended_margin_bps i
        + cln_blended_funding_bps i
        + blended_cln_cost_bps i p
        + cln_blended_credit_bps i p)
      / (-cln_blended_capital_bps i p)
      * i.cap_cost
  else 0

-- ---------------------------------------------------------------------
-- Single Comparison Table, source lines 1047-1134
-- ---------------------------------------------------------------------

/-- A table cell: a raw number, a literal string (`""`, `"-"`, `"100%"`,
`"0%"`), the warning sentinel, a value rendered with the two-decimal
percent format `f"\x7bx:.2f\x7d%"`, or with the zero-decimal percent
format `f"\x7bx:.0f\x7d%"` (the carried rational is the format argument). -/
inductive Cell where
  | num (q : ℚ)
  | str (s : String)
  | warn
  | pct2 (q : ℚ)
  | pct0 (q : ℚ)
  deriving DecidableEq

/-- One row of the single comparison table: `Item`, the two No-CLN
columns, the two CLN columns, and the `Differential` / `bps` columns. -/
structure CompRow where
  item : String
  no_cln_zar : Cell
  no_cln_bps : Cell
  cln_zar : Cell
  cln_bps : Cell
  diff_zar : Cell
  diff_bps : Cell
  deriving DecidableEq

/-- Transcription of `comparison_rows` from source lines 1047-1134
(`Single Comparison Table` mode), with the in-scope clamped `cln_amount`
as `a` and `cln_percentage` as `p`. -/
def comparison_rows (company_name : String) (i : Inputs) (a p : ℚ) : List CompRow :=
  [ ⟨company_name, .str "", .str "", .str "", .str "", .str "", .str ""⟩,
    ⟨"Margin", .num (margin_zar i), .num i.margin_bps,
      .num (cln_margin_zar i), .num (cln_margin_bps i),
      .num (cln_margin_zar i - margin_zar i), .num (cln_margin_bps i - i.margin_bps)⟩,
    ⟨"Total Cost", .num (total_cost_zar i), .num (total_cost_bps i),
      .num (cln_total_cost_zar i p), .num (cln_total_cost_bps i p),
      .num (cln_total_cost_zar i p - total_cost_zar i),
      .num (cln_total_cost_bps i p - total_cost_bps i)⟩,
    ⟨"Funding", .num (funding_zar i), .num i.funding_bps,
      .num (cln_funding_zar i), .num (cln_funding_bps i),
      .num (cln_funding_zar i - funding_zar i), .num (cln_funding_bps i - i.funding_bps)⟩,
    ⟨"Credit", .num (credit_zar i), .num i.credit_bps,
      .num (cln_credit_zar i p), .num (cln_credit_bps i p),
      .num (cln_credit_zar i p - credit_zar i), .num (cln_credit_bps i p - i.credit_bps)⟩,
    ⟨"Capital", .num (capital_zar i), .num i.capital_bps,
      .num (cln_capital_zar i p), .num (cln_capital_bps i p),
      .num (cln_capital_zar i p - capital_zar i), .num (cln_capital_bps i p - i.capital_bps)⟩,
    ⟨"Net Spread", .num (net_spread_zar i), .num (net_spread_bps i),
      .num (cln_net_spread_zar i p), .num (cln_net_spread_bps i p),
      .num (cln_net_spread_zar i p - net_spread_zar i),
      .num (cln_net_spread_bps i p - net_spread_bps i)⟩,
    ⟨"", .str "", .str "", .str "", .str "", .str "", .str ""⟩,
    ⟨"Commitment fee", .num (commitment_fee_zar i), .num i.commitment_fee_bps,
      .num (cln_commitment_fee_zar i), .num (cln_commitment_fee_bps i),
      .num (cln_commitment_fee_zar i - commitment_fee_zar i),
      .num (cln_commitment_fee_bps i - i.commitment_fee_bps)⟩,
    ⟨"Funding", .num (comm_fee_funding_zar i), .num i.commitment_fee_funding_bps,
      .num (cln_comm_fee_funding_zar i), .num (cln_comm_fee_funding_bps i),
      .num (cln_comm_fee_funding_zar i - comm_fee_funding_zar i),
      .num (cln_comm_fee_funding_bps i - i.commitment_fee_funding_bps)⟩,
    ⟨"Credit Cost", .num (comm_fee_credit_zar i), .num i.commitment_fee_credit_bps,
      .num (cln_commit_fee_credit_zar i p), .num (cln_commit_fee_credit_bps i p),
      .num (cln_commit_fee_credit_zar i p - comm_fee_credit_zar i),
      .num (cln_commit_fee_credit_bps i p - i.commitment_fee_credit_bps)⟩,
    ⟨"Capital Cost", .num (comm_fee_capital_zar i), .num i.commitment_fee_capital_bps,
      .num (cln_commit_fee_capital_zar i p), .num (cln_commit_fee_capital_bps i p),
      .num (cln_commit_fee_capital_zar i p - comm_fee_capital_zar i),
      .num (cln_commit_fee_capital_bps i p - i.commitment_fee_capital_bps)⟩,
    ⟨"Net Spread", .num (net_spread_commit_fees_zar i), .num (net_spread_commit_fees_bps i),
      .num (cln_net_commit_fee_zar i p), .num (cln_net_commit_fee_bps i p),
      .num (cln_net_commit_fee_zar i p - net_spread_commit_fees_zar i),
      .num (cln_net_commit_fee_bps i p - net_spread_commit_fees_bps i)⟩,
    ⟨"", .str "", .str "", .str "", .str "", .str "", .str ""⟩,
    ⟨"CLN Cost", .str "-", .str "-",
      .num (cln_specific_cost_zar i a), .num i.cln_cost_bps,
      .num (cln_specific_cost_zar i a), .num i.cln_cost_bps⟩,
    ⟨"", .str "", .str "", .str "", .str "", .str "", .str ""⟩,
    ⟨"Blended View", .str "", .str "", .str "", .str "", .str "", .str ""⟩,
    ⟨"Margin", .num (blended_view_margin_zar i), .num (blended_view_margin_bps i),
      .num (cln_blended_margin_zar i), .num (cln_blended_margin_bps i),
      .num (cln_blended_margin_zar i - blended_view_margin_zar i),
      .num (cln_blended_margin_bps i - blended_view_margin_bps i)⟩,
    ⟨"Funding", .num (blended_view_funding_zar i), .num (blended_view_funding_bps i),
      .num (cln_blended_funding_zar i), .num (cln_blended_funding_bps i),
      .num (cln_blended_funding_zar i - blended_view_funding_zar i),
      .num (cln_blended_funding_bps i - blended_view_funding_bps i)⟩,
    ⟨"CLN Cost", .str "-", .str "-",
      .num (blended_cln_cost_zar i a), .num (blended_cln_cost_bps i p),
      .num (blended_cln_cost_zar i a), .num (blended_cln_cost_bps i p)⟩,
    ⟨"Credit", .num (blended_view_credit_zar i), .num (blended_view_credit_bps i),
      .num (cln_blended_credit_zar i p), .num (cln_blended_credit_bps i p),
      .num (cln_blended_credit_zar i p - blended_view_credit_zar i),
      .num (cln_blended_credit_bps i p - blended_view_credit_bps i)⟩,
    ⟨"Capital", .num (blended_view_capital_zar i), .num (blended_view_capital_bps i),
      .num (cln_blended_capital_zar i p), .num (cln_blended_capital_bps i p),
      .num (cln_blended_capital_zar i p - blended_view_capital_zar i),
      .num (cln_blended_capital_bps i p - blended_view_capital_bps i)⟩,
    ⟨"Net Revenue", .num (blended_view_net_revenue_zar i), .num (blended_view_net_revenue_bps i),
      .num (cln_blended_netrev_zar i a p), .num (cln_blended_netrev_bps i p),
      .num (cln_blended_netrev_zar i a p - blended_view_net_revenue_zar i),
      .num (cln_blended_netrev_bps i p - blended_view_net_revenue_bps i)⟩,
    ⟨"", .str "", .str "", .str "", .str "", .str "", .str ""⟩,
    ⟨"ROC", .str "", .pct2 (blended_view_roc_bps i),
      .str "", if cln_roc_bps i p > 999 then .warn else .pct2 (cln_roc_bps i p),
      .str "", if cln_roc_bps i p > 999 then .warn
               else .pct2 (cln_roc_bps i p - blended_view_roc_bps i)⟩,
    ⟨"", .str "", .str "", .str "", .str "", .str "", .str ""⟩,
    ⟨"Facility Amount", .num i.rcf_limit, .str "100%",
      .num i.rcf_limit, .str "100%", .str "", .str ""⟩,
    ⟨"Drawn", .num (drawn_amount i), .pct0 (i.drawn_percentage * 100),
      .num (drawn_amount i), .pct0 (i.drawn_percentage * 100), .str "", .str ""⟩,
    ⟨"Undrawn", .num (undrawn_amount i), .pct0 (undrawn_percentage i * 100),
      .num (undrawn_amount i), .pct0 (undrawn_percentage i * 100), .str "", .str ""⟩,
    ⟨"", .str "", .str "", .str "", .str "", .str "", .str ""⟩,
    ⟨"CLN Note", .str "-", .str "0%",
      .num a, .pct0 (p * 100), .str "", .str ""⟩ ]

-- ---------------------------------------------------------------------
-- Concrete inputs for witnesses (the worked example of the sidebar
-- defaults: limit 2bn, 35% drawn, CLN 300m at -70bps)
-- ---------------------------------------------------------------------

/-- The sidebar default inputs with CLN enabled. -/
def exInputs : Inputs :=
  { rcf_limit := 2000000000
    drawn_percentage := 7/20
    cap_cost := 12
    margin_bps := 250
    funding_bps := -114
    credit_bps := -29
    capital_bps := -115
    commitment_fee_bps := 75
    commitment_fee_funding_bps := -13
    commitment_fee_credit_bps := -12
    commitment_fee_capital_bps := -50
    include_cln := true
    cln_amount := 300000000
    cln_cost_bps := -70 }

/-- The default inputs with both capital legs zeroed, so that the blended
capital bps is exactly 0 in both scenarios. -/
def exInputs0 : Inputs :=
  { exInputs with capital_bps := 0, commitment_fee_capital_bps := 0 }

-- ---------------------------------------------------------------------
-- Theorems
-- ---------------------------------------------------------------------

/-- Claim C1: the spec requires `cln_percentage = cln_amount / rcf_limit`
to be guarded at `rcf_limit = 0` (substitute 0, like the ROC guard).  The
code has no such guard: with `rcf_limit = 0`, CLN enabled and a positive
entered `cln_amount`, line 761 divides by zero, a fatal
`ZeroDivisionError` (modelled as `none`), instead of producing 0. -/
theorem cln_percentage_zero_limit_fatal :
    cln_percentage { exInputs with rcf_limit := 0, cln_amount := 1 } = none := by
  norm_num [cln_percentage, pyDiv, cln_amount_clamped, exInputs]

/-- Claim C2: in both scenarios `roc_bps` equals
`(margin + funding + cln + credit) / (-capital) * cap_cost` on the
blended bps whenever the blended capital bps is nonzero, and is exactly 0
whenever the blended capital bps is exactly 0. -/
theorem roc_guard (i : Inputs) (p : ℚ) :
    (blended_view_capital_bps i ≠ 0 →
      blended_view_roc_bps i =
        (blended_view_margin_bps i + blended_view_funding_bps i
            + blended_view_cln_bps i + blended_view_credit_bps i)
          / (-blended_view_capital_bps i) * i.cap_cost) ∧
    (blended_view_capital_bps i = 0 → blended_view_roc_bps i = 0) ∧
    (cln_blended_capital_bps i p ≠ 0 →
      cln_roc_bps i p =
        (cln_blended_margin_bps i + cln_blended_funding_bps i
            + blended_cln_cost_bps i p + cln_blended_credit_bps i p)
          / (-cln_blended_capital_bps i p) * i.cap_cost) ∧
    (cln_blended_capital_bps i p = 0 → cln_roc_bps i p = 0) := by
  refine ⟨fun h => ?_, fun h => ?_, fun h => ?_, fun h => ?_⟩ <;>
    simp [blended_view_roc_bps, cln_roc_bps, h]

/-- Witness for C2 at the default inputs (nonzero blended capital) and at
the capital-free variant (zero blended capital), both scenarios. -/
theorem roc_guard_witness :
    blended_view_roc_bps exInputs =
      (blended_view_margin_bps exInputs + blended_view_funding_bps exInputs
          + blended_view_cln_bps exInputs + blended_view_credit_bps exInputs)
        / (-blended_view_capital_bps exInputs) * exInputs.cap_cost ∧
    blended_view_roc_bps exInputs0 = 0 ∧
    cln_roc_bps exInputs (3/20) =
      (cln_blended_margin_bps exInputs + cln_blended_funding_bps exInputs
          + blended_cln_cost_bps exInputs (3/20) + cln_blended_credit_bps exInputs (3/20))
        / (-cln_blended_capital_bps exInputs (3/20)) * exInputs.cap_cost ∧
    cln_roc_bps exInputs0 (3/20) = 0 :=
  ⟨(roc_guard exInputs (3/20)).1
      (by norm_num [blended_view_capital_bps, undrawn_percentage, exInputs]),
   (roc_guard exInputs0 (3/20)).2.1
      (by norm_num [blended_view_capital_bps, undrawn_percentage, exInputs0, exInputs]),
   (roc_guard exInputs (3/20)).2.2.1
      (by norm_num [cln_blended_capital_bps, cln_capital_bps,
        cln_commit_fee_capital_bps, undrawn_percentage, exInputs]),
   (roc_guard exInputs0 (3/20)).2.2.2
      (by norm_num [cln_blended_capital_bps, cln_capital_bps,
        cln_commit_fee_capital_bps, undrawn_percentage, exInputs0, exInputs])⟩

/-- Claim C3: the CLN scenario re-derives every leg; `credit_bps`,
`capital_bps`, `commitment_fee_credit_bps` and
`commitment_fee_capital_bps` are scaled by `(1 - cln_percentage)` while
`margin_bps`, `funding_bps`, `commitment_fee_bps` and
`commitment_fee_funding_bps` pass through unchanged; at
`cln_percentage = 1` the four scaled credit/capital legs (bps and ZAR)
are exactly 0, and at `cln_percentage = 0` they equal the No-CLN legs. -/
theorem cln_scaling (i : Inputs) (p : ℚ) :
    cln_credit_bps i p = i.credit_bps * (1 - p) ∧
    cln_capital_bps i p = i.capital_bps * (1 - p) ∧
    cln_commit_fee_credit_bps i p = i.commitment_fee_credit_bps * (1 - p) ∧
    cln_commit_fee_capital_bps i p = i.commitment_fee_capital_bps * (1 - p) ∧
    cln_margin_bps i = i.margin_bps ∧
    cln_funding_bps i = i.funding_bps ∧
    cln_commitment_fee_bps i = i.commitment_fee_bps ∧
    cln_comm_fee_funding_bps i = i.commitment_fee_funding_bps ∧
    (p = 1 →
      cln_credit_bps i p = 0 ∧ cln_capital_bps i p = 0 ∧
      cln_commit_fee_credit_bps i p = 0 ∧ cln_commit_fee_capital_bps i p = 0 ∧
      cln_credit_zar i p = 0 ∧ cln_capital_zar i p = 0 ∧
      cln_commit_fee_credit_zar i p = 0 ∧ cln_commit_fee_capital_zar i p = 0) ∧
    (p = 0 →
      cln_credit_bps i p = i.credit_bps ∧ cln_capital_bps i p = i.capital_bps ∧
      cln_commit_fee_credit_bps i p = i.commitment_fee_credit_bps ∧
      cln_commit_fee_capital_bps i p = i.commitment_fee_capital_bps ∧
      cln_credit_zar i p = credit_zar i ∧ cln_capital_zar i p = capital_zar i ∧
      cln_commit_fee_credit_zar i p = comm_fee_credit_zar i ∧
      cln_commit_fee_capital_zar i p = comm_fee_capital_zar i) := by
  refine ⟨rfl, rfl, rfl, rfl, rfl, rfl, rfl, rfl, fun h => ?_, fun h => ?_⟩ <;>
    subst h <;>
    simp [cln_credit_bps, cln_capital_bps, cln_commit_fee_credit_bps,
      cln_commit_fee_capital_bps, cln_credit_zar, cln_capital_zar,
      cln_commit_fee_credit_zar, cln_commit_fee_capital_zar,
      credit_zar, capital_zar, comm_fee_credit_zar, comm_fee_capital_zar]

/-- Witness for C3 at the default inputs, at `cln_percentage = 1` (legs
vanish) and `cln_percentage = 0` (legs coincide with No-CLN). -/
theorem cln_scaling_witness :
    (cln_credit_bps exInputs 1 = 0 ∧ cln_capital_bps exInputs 1 = 0 ∧
      cln_commit_fee_credit_bps exInputs 1 = 0 ∧ cln_commit_fee_capital_bps exInputs 1 = 0 ∧
      cln_credit_zar exInputs 1 = 0 ∧ cln_capital_zar exInputs 1 = 0 ∧
      cln_commit_fee_credit_zar exInputs 1 = 0 ∧ cln_commit_fee_capital_zar exInputs 1 = 0) ∧
    (cln_credit_zar exInputs 0 = credit_zar exInputs ∧
      cln_capital_zar exInputs 0 = capital_zar exInputs) :=
  ⟨(cln_scaling exInputs 1).2.2.2.2.2.2.2.2.1 rfl,
   ⟨((cln_scaling exInputs 0).2.2.2.2.2.2.2.2.2 rfl).2.2.2.2.1,
    ((cln_scaling exInputs 0).2.2.2.2.2.2.2.2.2 rfl).2.2.2.2.2.1⟩⟩

/-- Claim C4: `net_spread_bps` is the plain (unscaled) sum of the four
drawn-leg bps rates, and `net_spread_commit_fees_bps` the plain sum of
the four undrawn-leg bps rates. -/
theorem net_spread_unscaled (i : Inputs) :
    net_spread_bps i = i.margin_bps + i.funding_bps + i.credit_bps + i.capital_bps ∧
    net_spread_commit_fees_bps i =
      i.commitment_fee_bps + i.commitment_fee_funding_bps
        + i.commitment_fee_credit_bps + i.commitment_fee_capital_bps := by
  constructor
  · simp [net_spread_bps, total_cost_bps, add_assoc]
  · rfl

/-- Claim C5: with CLN enabled (and positive facility limit), the CLN
branch is entered, `cln_amount` is replaced by `min(cln_amount,
rcf_limit)` before any derived quantity is computed, and the resulting
amount is ≤ `rcf_limit`, hence `cln_percentage ≤ 1`; an out-of-range
`cln_amount` is clamped, never rejected. -/
theorem cln_clamp_invariant (i : Inputs) (h1 : i.include_cln = true)
    (h2 : 0 < i.cln_amount) (h3 : 0 < i.rcf_limit) :
    cln_percentage i = some (cln_amount_clamped i / i.rcf_limit) ∧
    cln_amount_clamped i ≤ i.rcf_limit ∧
    cln_amount_clamped i / i.rcf_limit ≤ 1 := by
  refine ⟨?_, min_le_right _ _, ?_⟩
  · simp [cln_percentage, pyDiv, h1, h2, h3.ne']
  · exact (div_le_one h3).mpr (min_le_right _ _)

/-- Witness for C5: at the default inputs with the entered `cln_amount`
raised above the limit, it is clamped to the limit and the percentage
is 1. -/
theorem cln_clamp_invariant_witness :
    cln_percentage { exInputs with cln_amount := 3000000000 } =
      some (cln_amount_clamped { exInputs with cln_amount := 3000000000 }
              / (2000000000 : ℚ)) ∧
    cln_amount_clamped { exInputs with cln_amount := 3000000000 } ≤ 2000000000 ∧
    cln_amount_clamped { exInputs with cln_amount := 3000000000 } / (2000000000 : ℚ) ≤ 1 :=
  cln_clamp_invariant { exInputs with cln_amount := 3000000000 }
    rfl (by norm_num [exInputs]) (by norm_num [exInputs])

/-- Claim C6: each ZAR total is the exact sum of its per-leg ZAR
components, also where the source computes it in factored form
`amount * (sum of bps / 10000)`. -/
theorem zar_totals_sum_legs (i : Inputs) (p : ℚ) :
    total_cost_zar i = funding_zar i + credit_zar i + capital_zar i ∧
    net_spread_commit_fees_zar i =
      commitment_fee_zar i + comm_fee_funding_zar i
        + comm_fee_credit_zar i + comm_fee_capital_zar i ∧
    cln_total_cost_zar i p =
      cln_funding_zar i + cln_credit_zar i p + cln_capital_zar i p := by
  refine ⟨rfl, ?_, ?_⟩ <;>
    simp [net_spread_commit_fees_zar, net_commit_bps, commitment_fee_zar,
      comm_fee_funding_zar, comm_fee_credit_zar, comm_fee_capital_zar,
      cln_total_cost_zar, cln_total_cost_bps, cln_funding_zar, funding_zar,
      cln_funding_bps, cln_credit_zar, cln_capital_zar] <;>
    ring

/-- Claim C7: for each of the four legs, in both scenarios, the blended
ZAR is drawn-leg ZAR plus undrawn-leg ZAR and the blended bps is the
percentage-weighted sum of the drawn and undrawn bps. -/
theorem blended_decomposition (i : Inputs) (p : ℚ) :
    (blended_view_margin_zar i = margin_zar i + commitment_fee_zar i ∧
     blended_view_funding_zar i = funding_zar i + comm_fee_funding_zar i ∧
     blended_view_credit_zar i = credit_zar i + comm_fee_credit_zar i ∧
     blended_view_capital_zar i = capital_zar i + comm_fee_capital_zar i) ∧
    (blended_view_margin_bps i =
        i.margin_bps * i.drawn_percentage
          + i.commitment_fee_bps * (1 - i.drawn_percentage) ∧
     blended_view_funding_bps i =
        i.funding_bps * i.drawn_percentage
          + i.commitment_fee_funding_bps * (1 - i.drawn_percentage) ∧
     blended_view_credit_bps i =
        i.credit_bps * i.drawn_percentage
          + i.commitment_fee_credit_bps * (1 - i.drawn_percentage) ∧
     blended_view_capital_bps i =
        i.capital_bps * i.drawn_percentage
          + i.commitment_fee_capital_bps * (1 - i.drawn_percentage)) ∧
    (cln_blended_margin_zar i = cln_margin_zar i + cln_commitment_fee_zar i ∧
     cln_blended_funding_zar i = cln_funding_zar i + cln_comm_fee_funding_zar i ∧
     cln_blended_credit_zar i p = cln_credit_zar i p + cln_commit_fee_credit_zar i p ∧
     cln_blended_capital_zar i p = cln_capital_zar i p + cln_commit_fee_capital_zar i p) ∧
    (cln_blended_margin_bps i =
        cln_margin_bps i * i.drawn_percentage
          + cln_commitment_fee_bps i * (1 - i.drawn_percentage) ∧
     cln_blended_funding_bps i =
        cln_funding_bps i * i.drawn_percentage
          + cln_comm_fee_funding_bps i * (1 - i.drawn_percentage) ∧
     cln_blended_credit_bps i p =
        cln_credit_bps i p * i.drawn_percentage
          + cln_commit_fee_credit_bps i p * (1 - i.drawn_percentage) ∧
     cln_blended_capital_bps i p =
        cln_capital_bps i p * i.drawn_percentage
          + cln_commit_fee_capital_bps i p * (1 - i.drawn_percentage)) := by
  refine ⟨⟨rfl, rfl, rfl, rfl⟩, ⟨?_, ?_, ?_, ?_⟩, ⟨rfl, rfl, rfl, rfl⟩,
    ⟨?_, ?_, ?_, ?_⟩⟩ <;>
    simp [blended_view_margin_bps, blended_view_funding_bps,
      blended_view_credit_bps, blended_view_capital_bps,
      cln_blended_margin_bps, cln_blended_funding_bps,
      cln_blended_credit_bps, cln_blended_capital_bps,
      cln_commitment_fee_bps, undrawn_percentage]

/-- Claim C10: the CLN adjustment leaves the margin, funding,
commitment-fee and commitment-fee-funding line items (ZAR and bps) and
the blended margin and funding legs identical to the No-CLN scenario. -/
theorem cln_frame_margin_funding (i : Inputs) :
    cln_margin_zar i = margin_zar i ∧ cln_margin_bps i = i.margin_bps ∧
    cln_funding_zar i = funding_zar i ∧ cln_funding_bps i = i.funding_bps ∧
    cln_commitment_fee_zar i = commitment_fee_zar i ∧
    cln_commitment_fee_bps i = i.commitment_fee_bps ∧
    cln_comm_fee_funding_zar i = comm_fee_funding_zar i ∧
    cln_comm_fee_funding_bps i = i.commitment_fee_funding_bps ∧
    cln_blended_margin_zar i = blended_view_margin_zar i ∧
    cln_blended_margin_bps i = blended_view_margin_bps i ∧
    cln_blended_funding_zar i = blended_view_funding_zar i ∧
    cln_blended_funding_bps i = blended_view_funding_bps i := by
  refine ⟨rfl, rfl, rfl, rfl, rfl, rfl, rfl, rfl, ?_, ?_, ?_, ?_⟩ <;>
    simp [cln_blended_margin_zar, cln_blended_margin_bps,
      cln_blended_funding_zar, cln_blended_funding_bps,
      blended_view_margin_zar, blended_view_margin_bps,
      blended_view_funding_zar, blended_view_funding_bps,
      cln_margin_zar, cln_margin_bps, margin_zar,
      cln_funding_zar, cln_funding_bps,
      cln_commitment_fee_zar, cln_commitment_fee_bps, commitment_fee_zar,
      cln_comm_fee_funding_zar, cln_comm_fee_funding_bps, comm_fee_funding_zar]

/-- Claim C8: in Single Comparison Table mode, every row whose No-CLN and
CLN cells are numeric and which carries a numeric differential satisfies
`differential = cln - no_cln`, in ZAR and in bps. -/
theorem comparison_differential_roundtrip (name : String) (i : Inputs) (a p : ℚ) :
    ∀ r ∈ comparison_rows name i a p,
      (∀ x y d, r.no_cln_zar = Cell.num x → r.cln_zar = Cell.num y →
        r.diff_zar = Cell.num d → d = y - x) ∧
      (∀ x y d, r.no_cln_bps = Cell.num x → r.cln_bps = Cell.num y →
        r.diff_bps = Cell.num d → d = y - x) := by
  intro r hr
  simp only [comparison_rows, List.mem_cons, List.not_mem_nil, or_false] at hr
  rcases hr with rfl|rfl|rfl|rfl|rfl|rfl|rfl|rfl|rfl|rfl|rfl|rfl|rfl|rfl|rfl|rfl|
    rfl|rfl|rfl|rfl|rfl|rfl|rfl|rfl|rfl|rfl|rfl|rfl|rfl|rfl|rfl <;>
    constructor <;> intro x y d hx hy hd <;> simp_all

/-- Witness for C8: the "Margin" row of the comparison table at the
default inputs has ZAR differential `17.5m - 17.5m`. -/
theorem comparison_differential_roundtrip_witness :
    cln_margin_zar exInputs - margin_zar exInputs = 17500000 - 17500000 :=
  (comparison_differential_roundtrip "Co" exInputs 300000000 (3/20)
      ⟨"Margin", .num (margin_zar exInputs), .num exInputs.margin_bps,
        .num (cln_margin_zar exInputs), .num (cln_margin_bps exInputs),
        .num (cln_margin_zar exInputs - margin_zar exInputs),
        .num (cln_margin_bps exInputs - exInputs.margin_bps)⟩
      (List.mem_cons_of_mem _ (List.mem_cons_self _ _))).1
    17500000 17500000 (cln_margin_zar exInputs - margin_zar exInputs)
    (by norm_num [margin_zar, drawn_amount, exInputs])
    (by norm_num [cln_margin_zar, cln_margin_bps, drawn_amount, exInputs])
    rfl

/-- Claim C9: in Single Comparison Table mode, rows unique to the CLN
scenario ("CLN Cost", "CLN Note") carry the `"-"` sentinel on the No-CLN
side and no numeric differential base there, and the ROC row's CLN-side
and differential cells are the warning sentinel exactly when
`cln_roc_bps > 999`, and two-decimal percentages otherwise.  (The
company-name header row is assumed not to collide with these labels.) -/
theorem comparison_sentinels (name : String) (i : Inputs) (a p : ℚ)
    (hname : name ≠ "CLN Cost" ∧ name ≠ "CLN Note" ∧ name ≠ "ROC") :
    ∀ r ∈ comparison_rows name i a p,
      ((r.item = "CLN Cost" ∨ r.item = "CLN Note") →
        r.no_cln_zar = Cell.str "-" ∧
        (∀ q, r.no_cln_zar ≠ Cell.num q) ∧ (∀ q, r.no_cln_bps ≠ Cell.num q)) ∧
      (r.item = "ROC" →
        (999 < cln_roc_bps i p → r.cln_bps = Cell.warn ∧ r.diff_bps = Cell.warn) ∧
        (¬ 999 < cln_roc_bps i p →
          r.cln_bps = Cell.pct2 (cln_roc_bps i p) ∧
          r.diff_bps = Cell.pct2 (cln_roc_bps i p - blended_view_roc_bps i))) := by
  obtain ⟨hn1, hn2, hn3⟩ := hname
  intro r hr
  simp only [comparison_rows, List.mem_cons, List.not_mem_nil, or_false] at hr
  rcases hr with rfl|rfl|rfl|rfl|rfl|rfl|rfl|rfl|rfl|rfl|rfl|rfl|rfl|rfl|rfl|rfl|
    rfl|rfl|rfl|rfl|rfl|rfl|rfl|rfl|rfl|rfl|rfl|rfl|rfl|rfl|rfl <;>
    refine ⟨fun hitem => ?_, fun hroc => ?_⟩ <;> simp_all

/-- Witness for C9: at the default inputs the "CLN Cost" row carries
`"-"` in its No-CLN ZAR cell, and (since `cln_roc_bps ≈ 12 ≤ 999`) the
ROC row's CLN bps cell is the formatted percentage, not the warning. -/
theorem comparison_sentinels_witness :
    (⟨"CLN Cost", Cell.str "-", Cell.str "-",
        Cell.num (cln_specific_cost_zar exInputs 300000000),
        Cell.num exInputs.cln_cost_bps,
        Cell.num (cln_specific_cost_zar exInputs 300000000),
        Cell.num exInputs.cln_cost_bps⟩ : CompRow).no_cln_zar = Cell.str "-" ∧
    (⟨"ROC", Cell.str "", Cell.pct2 (blended_view_roc_bps exInputs),
        Cell.str "",
        if cln_roc_bps exInputs (3/20) > 999 then Cell.warn
        else Cell.pct2 (cln_roc_bps exInputs (3/20)),
        Cell.str "",
        if cln_roc_bps exInputs (3/20) > 999 then Cell.warn
        else Cell.pct2 (cln_roc_bps exInputs (3/20) - blended_view_roc_bps exInputs)⟩ :
      CompRow).cln_bps = Cell.pct2 (cln_roc_bps exInputs (3/20)) :=
  ⟨((comparison_sentinels "Co" exInputs 300000000 (3/20)
        (by refine ⟨?_, ?_, ?_⟩ <;> decide) _
        (by simp [comparison_rows])).1 (Or.inl rfl)).1,
   (((comparison_sentinels "Co" exInputs 300000000 (3/20)
        (by refine ⟨?_, ?_, ?_⟩ <;> decide) _
        (by simp [comparison_rows])).2 rfl).2
      (by norm_num [cln_roc_bps, cln_blended_capital_bps, cln_blended_margin_bps,
        cln_blended_funding_bps, blended_cln_cost_bps, cln_blended_credit_bps,
        cln_capital_bps, cln_commit_fee_capital_bps, cln_credit_bps,
        cln_commit_fee_credit_bps, cln_margin_bps, cln_funding_bps,
        cln_comm_fee_funding_bps, cln_commitment_fee_bps,
        undrawn_percentage, exInputs])).1⟩

end RCF
